import Mathlib

/-!
Shallow embedding of the Sovereign Forge core (src/schemas.py and
src/orchestrator.py): the record schemas with their field validators, the
pure policy predicates, and the shard lifecycle operations of
`AgentOrchestrator` (create_story_shard, assign_shard_to_agent,
complete_shard, create_journal_entry), with the orchestrator's mutable
state made explicit.
-/

namespace Forge

/-! ## Enumerations (src/schemas.py) -/

/-- `TaskStatus` enum: status of a task or story shard. -/
inductive TaskStatus where
  | pending
  | in_progress
  | completed
  | blocked
  | failed
  | archived
deriving DecidableEq, Repr

/-- The `.value` string of each `TaskStatus` member. -/
def TaskStatus.value : TaskStatus → String
  | .pending => "pending"
  | .in_progress => "in_progress"
  | .completed => "completed"
  | .blocked => "blocked"
  | .failed => "failed"
  | .archived => "archived"

/-- `SecurityLevel` enum: integer-backed clearance levels 1..5. -/
inductive SecurityLevel where
  | PUBLIC
  | INTERNAL
  | CONFIDENTIAL
  | SECRET
  | TOP_SECRET
deriving DecidableEq, Repr

/-- The `.value` integer of each `SecurityLevel` member. -/
def SecurityLevel.value : SecurityLevel → Nat
  | .PUBLIC => 1
  | .INTERNAL => 2
  | .CONFIDENTIAL => 3
  | .SECRET => 4
  | .TOP_SECRET => 5

/-- `AgentRole` enum: the twelve Guru Agent roles. -/
inductive AgentRole where
  | ARCHITECTURAL_SOVEREIGN
  | CODE_GENERATION_MAESTRO
  | SECURITY_SENTINEL
  | DEVOPS_AUTOMATOR
  | PROJECT_COORDINATOR
  | FRONTEND_ENGINEER
  | BACKEND_ENGINEER
  | DATA_SCIENCE_SHAPER
  | PERFORMANCE_OPTIMIZER
  | TEST_AUTOMATION_DIRECTOR
  | DOCUMENTATION_SYNTHESIZER
  | UX_UI_DESIGNER
deriving DecidableEq, Repr

/-- The `.value` string of each `AgentRole` member. -/
def AgentRole.value : AgentRole → String
  | .ARCHITECTURAL_SOVEREIGN => "architectural_sovereign"
  | .CODE_GENERATION_MAESTRO => "code_generation_maestro"
  | .SECURITY_SENTINEL => "security_sentinel"
  | .DEVOPS_AUTOMATOR => "devops_automator"
  | .PROJECT_COORDINATOR => "project_coordinator"
  | .FRONTEND_ENGINEER => "reactive_frontend_engineer"
  | .BACKEND_ENGINEER => "backend_systems_engineer"
  | .DATA_SCIENCE_SHAPER => "data_science_shaper"
  | .PERFORMANCE_OPTIMIZER => "performance_optimizer"
  | .TEST_AUTOMATION_DIRECTOR => "test_automation_director"
  | .DOCUMENTATION_SYNTHESIZER => "documentation_synthesizer"
  | .UX_UI_DESIGNER => "ux_ui_designer"

/-! ## Record types

Timestamps are carried as strings (the orchestrator only formats them);
the creation-time clock is passed in explicitly where the source calls
`datetime.now()` / `datetime.utcnow()`. -/

/-- `AgenticJournalEntry` (src/schemas.py lines 72-139): the fields the
validation utilities and the journal recorder read. -/
structure AgenticJournalEntry where
  task_id : String
  guru_agent : AgentRole
  timestamp : String
  logic_summary : String
  sub_agents_engaged : List String
  git_commit_hash : Option String
  artifacts_created : List String
  security_clearance : SecurityLevel
  parent_context_id : Option String
  next_steps : List String
  status : TaskStatus
deriving DecidableEq, Repr

/-- `CodeUpdate` (src/schemas.py lines 142-203): the fields
`validate_code_update` reads, plus the identifying ones. -/
structure CodeUpdate where
  file_path : String
  language : String
  code_snippet : String
  tests_passed : Bool
  security_scan_passed : Bool
  linting_passed : Bool
deriving DecidableEq, Repr

/-- `StoryShardSpec` (src/schemas.py lines 206-279), restricted to the
fields `create_story_shard` sets and serializes. -/
structure StoryShardSpec where
  shard_id : String
  title : String
  description : String
  owner_agent : AgentRole
  priority : String
  status : TaskStatus
  dependencies : List String
  estimated_complexity : Nat
  created_at : String
deriving DecidableEq, Repr

/-! ## Validation utilities (src/schemas.py lines 541-573) -/

/-- Python truthiness of an `Optional[str]`: falsy when `None` or `""`.
`validate_journal_entry` tests `not entry.git_commit_hash`. -/
def optStrFalsy : Option String → Bool
  | none => true
  | some s => s = ""

/-- `validate_journal_entry` (src/schemas.py lines 541-555). -/
def validate_journal_entry (entry : AgenticJournalEntry) : Bool :=
  if entry.task_id = "" || entry.logic_summary = "" then
    false
  else if entry.security_clearance = SecurityLevel.TOP_SECRET
      && optStrFalsy entry.git_commit_hash then
    false
  else
    true

/-- `validate_code_update` (src/schemas.py lines 558-573). -/
def validate_code_update (update : CodeUpdate) : Bool :=
  if !update.tests_passed then
    false
  else if !update.security_scan_passed then
    false
  else if !update.linting_passed then
    false
  else
    true

/-! ## Python string primitives

Kernel-reducible models of the Python string methods the source uses
(`str.strip`, `str.lower`, `str.upper`, single-character `str.replace`,
`str.split`, `str.title`), written over the character list. -/

/-- `str.strip()`: drop leading and trailing whitespace. -/
def pyStrip (s : String) : String :=
  String.mk
    (((s.toList.dropWhile Char.isWhitespace).reverse.dropWhile
        Char.isWhitespace).reverse)

/-- `str.lower()` for the ASCII names used here. -/
def pyLower (s : String) : String := String.mk (s.toList.map Char.toLower)

/-- `str.upper()` for the ASCII values used here. -/
def pyUpper (s : String) : String := String.mk (s.toList.map Char.toUpper)

/-- `str.replace(c, r)` for one-character patterns. -/
def pyReplaceChar (c r : Char) (s : String) : String :=
  String.mk (s.toList.map (fun x => if x = c then r else x))

/-- Split a character list on spaces (for `str.title()` over
letter-and-space strings). -/
def splitOnSpace : List Char → List (List Char)
  | [] => [[]]
  | x :: xs =>
      let r := splitOnSpace xs
      if x = ' ' then [] :: r
      else
        match r with
        | [] => [[x]]
        | g :: gs => (x :: g) :: gs

/-! ## Schema construction (pydantic model validation)

Pydantic validates each field independently and reports every violated
constraint; `model_config` sets `str_strip_whitespace=True`, so string
fields are trimmed before the constraints run. -/

/-- One violated field constraint of `StoryShardSpec`. -/
inductive ShardFieldViolation where
  | shard_id_mismatch
  | title_length
  | description_length
  | complexity_range
deriving DecidableEq, Repr

/-- The regex `^SHARD-\d{3}-[A-Z]+$` on `StoryShardSpec.shard_id`
(src/schemas.py line 218). -/
def shardIdMatches (s : String) : Bool :=
  match s.toList with
  | 'S' :: 'H' :: 'A' :: 'R' :: 'D' :: '-' :: d1 :: d2 :: d3 :: '-' :: rest =>
      d1.isDigit && d2.isDigit && d3.isDigit
        && !rest.isEmpty && rest.all Char.isUpper
  | _ => false

/-- Constructing a `StoryShardSpec`: trim the string fields, then check
every declared constraint, collecting all violations (pydantic reports
them all, not just the first). -/
def StoryShardSpec.build (shard_id title description : String)
    (owner_agent : AgentRole) (priority : String) (status : TaskStatus)
    (dependencies : List String) (estimated_complexity : Nat) (now : String) :
    Except (List ShardFieldViolation) StoryShardSpec :=
  let sid := pyStrip shard_id
  let t := pyStrip title
  let d := pyStrip description
  let errs : List ShardFieldViolation :=
    (if shardIdMatches sid then [] else [ShardFieldViolation.shard_id_mismatch])
    ++ (if 5 ≤ t.length ∧ t.length ≤ 200 then [] else [ShardFieldViolation.title_length])
    ++ (if 20 ≤ d.length then [] else [ShardFieldViolation.description_length])
    ++ (if 1 ≤ estimated_complexity ∧ estimated_complexity ≤ 10 then []
        else [ShardFieldViolation.complexity_range])
  if errs.isEmpty then
    .ok { shard_id := sid, title := t, description := d,
          owner_agent := owner_agent, priority := priority, status := status,
          dependencies := dependencies,
          estimated_complexity := estimated_complexity, created_at := now }
  else
    .error errs

/-- One violated field constraint of `AgenticJournalEntry`. -/
inductive EntryFieldViolation where
  | task_id_length
  | logic_summary_length
deriving DecidableEq, Repr

/-- Constructing an `AgenticJournalEntry` the way `create_journal_entry`
does (git_commit_hash, parent_context_id and next_steps left at their
defaults, clearance fixed to INTERNAL by the caller): trim the string
fields, check the declared length bounds, collect all violations. -/
def AgenticJournalEntry.build (task_id : String) (guru_agent : AgentRole)
    (logic_summary : String) (sub_agents_engaged artifacts_created : List String)
    (security_clearance : SecurityLevel) (status : TaskStatus)
    (timestamp : String) :
    Except (List EntryFieldViolation) AgenticJournalEntry :=
  let tid := pyStrip task_id
  let ls := pyStrip logic_summary
  let errs : List EntryFieldViolation :=
    (if 5 ≤ tid.length ∧ tid.length ≤ 50 then [] else [EntryFieldViolation.task_id_length])
    ++ (if 10 ≤ ls.length ∧ ls.length ≤ 5000 then []
        else [EntryFieldViolation.logic_summary_length])
  if errs.isEmpty then
    .ok { task_id := tid, guru_agent := guru_agent, timestamp := timestamp,
          logic_summary := ls, sub_agents_engaged := sub_agents_engaged,
          git_commit_hash := none, artifacts_created := artifacts_created,
          security_clearance := security_clearance, parent_context_id := none,
          next_steps := [], status := status }
  else
    .error errs

/-! ## Orchestrator state (src/orchestrator.py)

`self.active_shards` is the JSON document holding the three shard
collections; each stored shard is the dict built at lines 152-160 of
create_story_shard (`completed_at` is added only by complete_shard, so it
is optional here). The `metrics` sub-document is absent in the default
produced by `_load_active_shards` when no persisted file exists. -/

/-- A stored shard dict, as serialized into `active_story_shards.json`. -/
structure ShardRecord where
  shard_id : String
  title : String
  status : String
  priority : String
  owner_agent : String
  created_at : String
  dependencies : List String
  completed_at : Option String
deriving DecidableEq, Repr

/-- The `metrics` sub-document. -/
structure Metrics where
  total_completed : Int
deriving DecidableEq, Repr

/-- The loaded shard document (`self.active_shards`). -/
structure ShardStore where
  active_shards : List ShardRecord
  completed_shards : List ShardRecord
  archived_shards : List ShardRecord
  metrics : Option Metrics
deriving DecidableEq, Repr

/-- The document `_load_active_shards` returns when no persisted shard
file exists (src/orchestrator.py line 80): three empty collections and no
`metrics` key. -/
def ShardStore.initial : ShardStore :=
  { active_shards := [], completed_shards := [], archived_shards := [],
    metrics := none }

/-- An agent descriptor from the conductor manifest (the fields the
orchestrator reads). -/
structure AgentDescriptor where
  name : String
  status : String
deriving DecidableEq, Repr

/-- `a['name'].lower().replace(' ', '_')` (src/orchestrator.py line 196). -/
def normalizeAgentName (s : String) : String :=
  pyReplaceChar ' ' '_' (pyLower s)

/-! ## create_story_shard (src/orchestrator.py lines 117-169) -/

/-- `create_story_shard`: validate the `StoryShardSpec` (pydantic raises
on violation — modelled as `.error`), build the shard dict, append it to
the active collection unconditionally, and return the validated spec.
There is no duplicate-ID check against any collection. -/
def create_story_shard (st : ShardStore) (shard_id title description : String)
    (owner_agent : AgentRole) (priority : String) (dependencies : List String)
    (now : String) :
    Except (List ShardFieldViolation) (StoryShardSpec × ShardStore) :=
  match StoryShardSpec.build shard_id title description owner_agent priority
      TaskStatus.pending dependencies 5 now with
  | .error e => .error e
  | .ok shard =>
      let shard_dict : ShardRecord :=
        { shard_id := shard.shard_id, title := shard.title,
          status := shard.status.value, priority := shard.priority,
          owner_agent := shard.owner_agent.value,
          created_at := shard.created_at,
          dependencies := shard.dependencies, completed_at := none }
      .ok (shard, { st with active_shards := st.active_shards ++ [shard_dict] })

/-! ## assign_shard_to_agent (src/orchestrator.py lines 171-211) -/

/-- Set the status of the first shard with the given id (the source finds
the first match and mutates that dict in place). -/
def setStatusFirst : List ShardRecord → String → String → List ShardRecord
  | [], _, _ => []
  | s :: rest, id, v =>
      if s.shard_id = id then { s with status := v } :: rest
      else s :: setStatusFirst rest id v

/-- `assign_shard_to_agent`: find the shard in the active collection
(first match); if absent return None with the state untouched. Resolve
the owner agent in the manifest by normalized name; if absent return None
with the state untouched. Otherwise set the shard's status to
`in_progress` and return the agent. No dependency check of any kind is
performed. -/
def assign_shard_to_agent (manifest : List AgentDescriptor) (st : ShardStore)
    (shard_id : String) : Option AgentDescriptor × ShardStore :=
  match st.active_shards.find? (fun s => s.shard_id = shard_id) with
  | none => (none, st)
  | some shard =>
      match manifest.find? (fun a => normalizeAgentName a.name = shard.owner_agent) with
      | none => (none, st)
      | some agent =>
          (some agent,
            { st with active_shards :=
                setStatusFirst st.active_shards shard_id TaskStatus.in_progress.value })

/-! ## complete_shard (src/orchestrator.py lines 298-331) -/

/-- Remove the first shard with the given id, returning it and the
remaining list (the source pops at the first matching index). -/
def removeFirst : List ShardRecord → String → Option (ShardRecord × List ShardRecord)
  | [], _ => none
  | s :: rest, id =>
      if s.shard_id = id then some (s, rest)
      else
        match removeFirst rest id with
        | none => none
        | some (x, l) => some (x, s :: l)

/-- Outcome of `complete_shard`: `ok` is the `return True` path (state
saved); `notFound` is the `return False` path (state untouched);
`keyError` is the unhandled `KeyError` raised at line 325 when the loaded
document has no `metrics` key — it carries the in-memory state as already
mutated at that point (shard popped from active and appended to
completed), which is not persisted. -/
inductive CompleteResult where
  | ok (st : ShardStore)
  | notFound (st : ShardStore)
  | keyError (inMemory : ShardStore)
deriving DecidableEq, Repr

/-- `complete_shard`: pop the first matching shard from active (if none,
print and return False); set its status to completed and stamp
`completed_at`; append it to the completed collection; then increment
`metrics["total_completed"]` — a KeyError when `metrics` is absent —
and save. -/
def complete_shard (st : ShardStore) (shard_id : String) (now : String) :
    CompleteResult :=
  match removeFirst st.active_shards shard_id with
  | none => .notFound st
  | some (shard, restActive) =>
      let shard1 : ShardRecord :=
        { shard with status := TaskStatus.completed.value,
                     completed_at := some now }
      let st1 : ShardStore :=
        { st with active_shards := restActive,
                  completed_shards := st.completed_shards ++ [shard1] }
      match st1.metrics with
      | none => .keyError st1
      | some m =>
          .ok { st1 with metrics := some { total_completed := m.total_completed + 1 } }

/-! ## create_journal_entry (src/orchestrator.py lines 213-296)

The journal directory is modelled as an association list from filename to
content. `open(filepath, 'w')` replaces the content when the name already
exists, otherwise it creates the file. The clock readings the source takes
(`datetime.now().strftime("%Y-%m-%d-%H%M%S")` for the filename,
`entry.timestamp.isoformat()` and the two `strftime` renderings for the
body) are passed in explicitly. -/

/-- The journal directory: filename-to-content pairs in creation order. -/
structure JournalStore where
  files : List (String × String)
deriving DecidableEq, Repr

/-- The empty journal directory. -/
def JournalStore.empty : JournalStore := { files := [] }

/-- `open(filepath, 'w')` followed by `f.write(content)`: overwrite the
record of that name when present, create it otherwise. -/
def JournalStore.write (j : JournalStore) (name content : String) : JournalStore :=
  if j.files.any (fun p => p.1 = name) then
    { files := j.files.map (fun p => if p.1 = name then (name, content) else p) }
  else
    { files := j.files ++ [(name, content)] }

/-- `f"{timestamp}-{task_id.lower()}.md"` (src/orchestrator.py line 251):
the record name derived from the second-resolution timestamp and the
task id. -/
def journalFilename (fileStamp task_id : String) : String :=
  fileStamp ++ "-" ++ pyLower task_id ++ ".md"

/-- The clock readings taken during one `create_journal_entry` call:
`fileStamp` is `datetime.now().strftime("%Y-%m-%d-%H%M%S")`, `iso` is the
entry timestamp's `isoformat()`, `display` its
`strftime("%Y-%m-%d %H:%M:%S")`. -/
structure ClockReading where
  fileStamp : String
  iso : String
  display : String
deriving DecidableEq, Repr

/-- `json.dumps` of a list of strings, for names free of characters that
JSON escapes (the only inputs the orchestrator passes). -/
def jsonDumpsStrList (l : List String) : String :=
  "[" ++ String.intercalate ", " (l.map (fun s => "\"" ++ s ++ "\"")) ++ "]"

/-- `chr(10).join(line(x) for x in items) if items else placeholder`. -/
def bulletList (items : List String) (line : String → String)
    (placeholder : String) : String :=
  if items.isEmpty then placeholder
  else String.intercalate "\n" (items.map line)

/-- Python `str.title()` on a word: first character uppercased, the rest
lowercased. -/
def titleWord : List Char → List Char
  | [] => []
  | c :: rest => c.toUpper :: rest.map Char.toLower

/-- Python `str.title()` restricted to letter-and-space strings (the only
inputs used: role values with underscores replaced by spaces). -/
def pythonTitle (s : String) : String :=
  String.intercalate " "
    ((splitOnSpace s.toList).map (fun w => String.mk (titleWord w)))

/-- The markdown body written by `create_journal_entry`
(src/orchestrator.py lines 255-289). -/
def renderJournalContent (entry : AgenticJournalEntry) (display : String) : String :=
  "---\n"
  ++ "task_id: \"" ++ entry.task_id ++ "\"\n"
  ++ "status: \"" ++ entry.status.value ++ "\"\n"
  ++ "owner_agent: \"" ++ entry.guru_agent.value ++ "\"\n"
  ++ "contributing_agents: " ++ jsonDumpsStrList entry.sub_agents_engaged ++ "\n"
  ++ "last_sync: \"" ++ entry.timestamp ++ "\"\n"
  ++ "security_clearance: " ++ toString entry.security_clearance.value ++ "\n"
  ++ "---\n\n"
  ++ "# Journal Entry: " ++ entry.task_id ++ "\n\n"
  ++ "**Date:** " ++ display ++ "  \n"
  ++ "**Agent:** " ++ pythonTitle (pyReplaceChar '_' ' ' entry.guru_agent.value) ++ "  \n"
  ++ "**Status:** " ++ pyUpper entry.status.value ++ "\n\n"
  ++ "## Summary\n\n"
  ++ entry.logic_summary ++ "\n\n"
  ++ "## Sub-Agents Engaged\n\n"
  ++ bulletList entry.sub_agents_engaged (fun a => "- " ++ a) "None" ++ "\n\n"
  ++ "## Artifacts Created\n\n"
  ++ bulletList entry.artifacts_created (fun a => "- `" ++ a ++ "`") "None" ++ "\n\n"
  ++ "## Next Steps\n\n"
  ++ bulletList entry.next_steps (fun s => "- " ++ s) "To be determined" ++ "\n\n"
  ++ "---\n\n"
  ++ "*Generated by Agent Orchestrator*\n"

/-- `create_journal_entry`: construct and validate the entry (clearance
fixed to INTERNAL), derive the record name from the clock's
second-resolution stamp and the lowercased `task_id` argument, write the
rendered body into the journal store, and return the validated entry. -/
def create_journal_entry (journal : JournalStore) (task_id : String)
    (guru_agent : AgentRole) (logic_summary : String)
    (sub_agents_engaged artifacts_created : List String) (status : TaskStatus)
    (clock : ClockReading) :
    Except (List EntryFieldViolation) (AgenticJournalEntry × JournalStore) :=
  match AgenticJournalEntry.build task_id guru_agent logic_summary
      sub_agents_engaged artifacts_created SecurityLevel.INTERNAL status
      clock.iso with
  | .error e => .error e
  | .ok entry =>
      let filename := journalFilename clock.fileStamp task_id
      let content := renderJournalContent entry clock.display
      .ok (entry, journal.write filename content)

/-! ## Extractors and store invariant used by the theorems -/

deriving instance DecidableEq for Except

/-- Whether an `Except` result is a success. -/
def exceptIsOk {ε α : Type} : Except ε α → Bool
  | .ok _ => true
  | .error _ => false

/-- The state delivered by a successful `create_story_shard`, or the
fallback. -/
def createStateOr (d : ShardStore) :
    Except (List ShardFieldViolation) (StoryShardSpec × ShardStore) → ShardStore
  | .ok (_, s) => s
  | .error _ => d

/-- The violation list of a failed `create_story_shard`, or the fallback. -/
def createErrsOr (d : List ShardFieldViolation) :
    Except (List ShardFieldViolation) (StoryShardSpec × ShardStore) →
    List ShardFieldViolation
  | .ok _ => d
  | .error e => e

/-- The in-memory shard document after `complete_shard`, on every outcome
path (for `keyError` this is the unsaved, partially mutated document). -/
def completeResultState : CompleteResult → ShardStore
  | .ok s => s
  | .notFound s => s
  | .keyError s => s

/-- The journal store delivered by `create_journal_entry`, or the
fallback. -/
def journalOr (d : JournalStore) :
    Except (List EntryFieldViolation) (AgenticJournalEntry × JournalStore) →
    JournalStore
  | .ok (_, j) => j
  | .error _ => d

/-- The entry delivered by `create_journal_entry`, or the fallback. -/
def entryOr (d : AgenticJournalEntry) :
    Except (List EntryFieldViolation) (AgenticJournalEntry × JournalStore) →
    AgenticJournalEntry
  | .ok (e, _) => e
  | .error _ => d

/-- The shard dict built by `create_story_shard` (lines 152-160). -/
def shardDictOf (shard : StoryShardSpec) : ShardRecord :=
  { shard_id := shard.shard_id, title := shard.title,
    status := shard.status.value, priority := shard.priority,
    owner_agent := shard.owner_agent.value, created_at := shard.created_at,
    dependencies := shard.dependencies, completed_at := none }

/-- The status/stamp rewrite `complete_shard` applies to the popped
shard dict (lines 320-321). -/
def completedDictOf (x : ShardRecord) (now : String) : ShardRecord :=
  { x with status := TaskStatus.completed.value, completed_at := some now }

/-- The shard ids stored in a collection, in order. -/
def idsOf (l : List ShardRecord) : List String := l.map ShardRecord.shard_id

/-- Two id lists share no element. -/
def disjointIds (l1 l2 : List String) : Bool :=
  l1.all (fun x => decide (x ∉ l2))

/-- The spec's collection invariant: each of the three collections is
duplicate-free and the three are pairwise disjoint (so every stored
shard_id belongs to exactly one collection). -/
def StoreInv (st : ShardStore) : Prop :=
  (idsOf st.active_shards).Nodup
  ∧ (idsOf st.completed_shards).Nodup
  ∧ (idsOf st.archived_shards).Nodup
  ∧ disjointIds (idsOf st.active_shards) (idsOf st.completed_shards) = true
  ∧ disjointIds (idsOf st.active_shards) (idsOf st.archived_shards) = true
  ∧ disjointIds (idsOf st.completed_shards) (idsOf st.archived_shards) = true

instance (st : ShardStore) : Decidable (StoreInv st) := by
  unfold StoreInv; infer_instance

/-! ## Concrete fixtures used by the counterexamples and witnesses -/

/-- A title within the 5..200 length bounds. -/
def sampleTitle : String := "Valid shard title"

/-- A description meeting the 20-character minimum. -/
def sampleDescription : String := "A sufficiently detailed description of the work."

/-- A one-agent conductor manifest whose normalized name is
`architectural_sovereign`. -/
def sampleManifest : List AgentDescriptor :=
  [{ name := "Architectural Sovereign", status := "active" }]

/-- Whether `complete_shard` took its `return True` path. -/
def completeIsOk : CompleteResult → Bool
  | .ok _ => true
  | _ => false

/-- A Create call with fixed, schema-valid fields and id `SHARD-001-A`. -/
def c1_create (st : ShardStore) (now : String) :
    Except (List ShardFieldViolation) (StoryShardSpec × ShardStore) :=
  create_story_shard st "SHARD-001-A" sampleTitle sampleDescription
    AgentRole.ARCHITECTURAL_SOVEREIGN "medium" [] now

/-- State after one `SHARD-001-A` Create from the default-loaded store. -/
def c1_st1 : ShardStore :=
  createStateOr ShardStore.initial (c1_create ShardStore.initial "T0")

/-- The validated spec produced by `c1_create` at time `T1`. -/
def c1_shard : StoryShardSpec :=
  { shard_id := "SHARD-001-A", title := sampleTitle,
    description := sampleDescription,
    owner_agent := AgentRole.ARCHITECTURAL_SOVEREIGN, priority := "medium",
    status := TaskStatus.pending, dependencies := [],
    estimated_complexity := 5, created_at := "T1" }

/-- An empty store loaded from a persisted document that does carry a
`metrics` sub-document. -/
def c2_st0 : ShardStore :=
  { active_shards := [], completed_shards := [], archived_shards := [],
    metrics := some { total_completed := 0 } }

/-- `c2_st0` after Create of `SHARD-001-A`. -/
def c2_st1 : ShardStore := createStateOr c2_st0 (c1_create c2_st0 "T0")

/-- `c2_st1` after Complete of `SHARD-001-A` (the shard moves to the
completed collection). -/
def c2_st2 : ShardStore :=
  completeResultState (complete_shard c2_st1 "SHARD-001-A" "T1")

/-- `c2_st2` after a second Create of `SHARD-001-A`. -/
def c2_st3 : ShardStore := createStateOr c2_st2 (c1_create c2_st2 "T2")

/-- The validated spec produced by `c1_create` at time `T0`. -/
def c2_shard0 : StoryShardSpec :=
  { shard_id := "SHARD-001-A", title := sampleTitle,
    description := sampleDescription,
    owner_agent := AgentRole.ARCHITECTURAL_SOVEREIGN, priority := "medium",
    status := TaskStatus.pending, dependencies := [],
    estimated_complexity := 5, created_at := "T0" }

/-- An active shard with an unmet dependency (`SHARD-999-DEP` is in no
collection). -/
def c3_record : ShardRecord :=
  { shard_id := "SHARD-002-B", title := "Dependent shard",
    status := "pending", priority := "high",
    owner_agent := "architectural_sovereign", created_at := "T0",
    dependencies := ["SHARD-999-DEP"], completed_at := none }

/-- A store holding only `c3_record`; its dependency is not completed. -/
def c3_st : ShardStore :=
  { active_shards := [c3_record], completed_shards := [],
    archived_shards := [], metrics := some { total_completed := 0 } }

/-- An unrelated shard stored while Complete is tried on an absent id. -/
def c4_record : ShardRecord :=
  { shard_id := "SHARD-007-G", title := "Some shard", status := "pending",
    priority := "low", owner_agent := "security_sentinel",
    created_at := "T0", dependencies := [], completed_at := none }

/-- A store used to exercise Complete on an absent shard id. -/
def c4_st : ShardStore :=
  { active_shards := [c4_record], completed_shards := [],
    archived_shards := [], metrics := some { total_completed := 3 } }

/-- A journal entry with an empty `task_id`. -/
def c6_entry_empty : AgenticJournalEntry :=
  { task_id := "", guru_agent := AgentRole.SECURITY_SENTINEL,
    timestamp := "T", logic_summary := "Some summary text here.",
    sub_agents_engaged := [], git_commit_hash := none,
    artifacts_created := [], security_clearance := SecurityLevel.INTERNAL,
    parent_context_id := none, next_steps := [],
    status := TaskStatus.in_progress }

/-- A TOP_SECRET journal entry with no commit hash. -/
def c6_entry_ts_nohash : AgenticJournalEntry :=
  { task_id := "SHARD-001-A", guru_agent := AgentRole.SECURITY_SENTINEL,
    timestamp := "T", logic_summary := "Some summary text here.",
    sub_agents_engaged := [], git_commit_hash := none,
    artifacts_created := [], security_clearance := SecurityLevel.TOP_SECRET,
    parent_context_id := none, next_steps := [],
    status := TaskStatus.in_progress }

/-- The same TOP_SECRET entry carrying a 7-character lowercase-hex
commit hash. -/
def c6_entry_ts_hash : AgenticJournalEntry :=
  { c6_entry_ts_nohash with git_commit_hash := some "a1b2c3d" }

/-- A pending shard owned by the sample manifest's agent. -/
def c8_record : ShardRecord :=
  { shard_id := "SHARD-004-D", title := "Idempotence shard",
    status := "pending", priority := "medium",
    owner_agent := "architectural_sovereign", created_at := "T0",
    dependencies := [], completed_at := none }

/-- A store holding one pending shard owned by the sample manifest's
agent. -/
def c8_st : ShardStore :=
  { active_shards := [c8_record], completed_shards := [],
    archived_shards := [], metrics := some { total_completed := 0 } }

/-- The manifest agent record resolved by Assign. -/
def c8_agent : AgentDescriptor :=
  { name := "Architectural Sovereign", status := "active" }

/-- `c8_st` after one Assign of `SHARD-004-D`. -/
def c8_st2 : ShardStore :=
  (assign_shard_to_agent sampleManifest c8_st "SHARD-004-D").2

/-- One second-resolution clock reading, shared by two Record calls that
land within the same second. -/
def c9_clock : ClockReading :=
  { fileStamp := "2026-01-01-120000", iso := "2026-01-01T12:00:00",
    display := "2026-01-01 12:00:00" }

/-- A Record call on task `SHARD-001-A` at the `c9_clock` instant. -/
def c9_record (j : JournalStore) (summary : String) :
    Except (List EntryFieldViolation) (AgenticJournalEntry × JournalStore) :=
  create_journal_entry j "SHARD-001-A" AgentRole.ARCHITECTURAL_SOVEREIGN
    summary [] [] TaskStatus.in_progress c9_clock

/-- The journal after the first Record call. -/
def c9_j1 : JournalStore :=
  journalOr JournalStore.empty
    (c9_record JournalStore.empty "First summary of the work done.")

/-- The journal after a second Record call within the same second for
the same task. -/
def c9_j2 : JournalStore :=
  journalOr JournalStore.empty
    (c9_record c9_j1 "Second, materially different summary.")

/-- A Record call used as the witness for the amended journal claim. -/
def c9w_res :
    Except (List EntryFieldViolation) (AgenticJournalEntry × JournalStore) :=
  create_journal_entry JournalStore.empty "SHARD-005-E"
    AgentRole.SECURITY_SENTINEL "Witness summary for the journal recorder."
    ["Scanner"] ["a.py"] TaskStatus.completed c9_clock

/-- The entry returned by `c9w_res`. -/
def c9w_entry : AgenticJournalEntry := entryOr c6_entry_empty c9w_res

/-- The journal produced by `c9w_res`. -/
def c9w_j2 : JournalStore := journalOr JournalStore.empty c9w_res

/-- The default-loaded store (no `metrics` key) after one Create: the
state in which Complete on the created shard hits the KeyError. -/
def c10_st : ShardStore :=
  createStateOr ShardStore.initial
    (create_story_shard ShardStore.initial "SHARD-003-C" sampleTitle
      sampleDescription AgentRole.SECURITY_SENTINEL "high" [] "T0")

/-- The shard dict stored in `c10_st`. -/
def c10_rec : ShardRecord :=
  { shard_id := "SHARD-003-C", title := sampleTitle, status := "pending",
    priority := "high", owner_agent := "security_sentinel",
    created_at := "T0", dependencies := [], completed_at := none }

/-- `c10_rec` as mutated in memory by the failing Complete call. -/
def c10_rec_done : ShardRecord :=
  { c10_rec with status := TaskStatus.completed.value,
                 completed_at := some "T9" }

/-! ## Helper lemmas -/

/-- `disjointIds` decides pairwise emptiness of the intersection. -/
theorem disjointIds_iff (l1 l2 : List String) :
    disjointIds l1 l2 = true ↔ ∀ a ∈ l1, a ∉ l2 := by
  simp [disjointIds, List.all_eq_true]

/-- Setting a status never changes the stored ids. -/
theorem idsOf_setStatusFirst (l : List ShardRecord) (id v : String) :
    idsOf (setStatusFirst l id v) = idsOf l := by
  induction l with
  | nil => rfl
  | cons s rest ih =>
      by_cases h : s.shard_id = id
      · simp [setStatusFirst, h, idsOf]
      · simp only [setStatusFirst, if_neg h, idsOf, List.map_cons]
        simpa [idsOf] using ih

/-- Setting a status never changes the collection's length. -/
theorem length_setStatusFirst (l : List ShardRecord) (id v : String) :
    (setStatusFirst l id v).length = l.length := by
  induction l with
  | nil => rfl
  | cons s rest ih =>
      by_cases h : s.shard_id = id
      · simp [setStatusFirst, h]
      · simp [setStatusFirst, h, ih]

/-- Finding after setting the status finds the updated record. -/
theorem find?_setStatusFirst (l : List ShardRecord) (id v : String) :
    (setStatusFirst l id v).find? (fun s => s.shard_id = id)
      = (l.find? (fun s => s.shard_id = id)).map
          (fun s => { s with status := v }) := by
  induction l with
  | nil => rfl
  | cons s rest ih =>
      by_cases h : s.shard_id = id
      · simp [setStatusFirst, h, List.find?_cons]
      · simp [setStatusFirst, h, List.find?_cons, ih]

/-- Setting the same status twice is the same as setting it once. -/
theorem setStatusFirst_idem (l : List ShardRecord) (id v : String) :
    setStatusFirst (setStatusFirst l id v) id v = setStatusFirst l id v := by
  induction l with
  | nil => rfl
  | cons s rest ih =>
      by_cases h : s.shard_id = id
      · simp [setStatusFirst, h]
      · simp [setStatusFirst, h, ih]

/-- A shard id absent from the collection cannot be popped. -/
theorem removeFirst_eq_none_of_not_mem (l : List ShardRecord) (id : String)
    (h : id ∉ idsOf l) : removeFirst l id = none := by
  induction l with
  | nil => rfl
  | cons s rest ih =>
      simp only [idsOf, List.map_cons, List.mem_cons, not_or] at h
      have hs : ¬ s.shard_id = id := fun e => h.1 e.symm
      simp only [removeFirst, if_neg hs]
      rw [ih (by simpa [idsOf] using h.2)]

/-- A successful pop returns a record bearing the requested id. -/
theorem removeFirst_shard_id (l : List ShardRecord) (id : String)
    (x : ShardRecord) (rest : List ShardRecord)
    (h : removeFirst l id = some (x, rest)) : x.shard_id = id := by
  induction l generalizing rest with
  | nil => simp [removeFirst] at h
  | cons s tl ih =>
      by_cases hs : s.shard_id = id
      · simp only [removeFirst, if_pos hs, Option.some.injEq, Prod.mk.injEq] at h
        rw [← h.1]; exact hs
      · simp only [removeFirst, if_neg hs] at h
        cases htl : removeFirst tl id with
        | none => rw [htl] at h; simp at h
        | some p =>
            rw [htl] at h
            obtain ⟨y, l2⟩ := p
            simp only [Option.some.injEq, Prod.mk.injEq] at h
            exact h.1 ▸ ih l2 (by rw [htl, h.1])

/-- Popping a record permutes the id list into the popped id consed onto
the remaining ids. -/
theorem removeFirst_perm (l : List ShardRecord) (id : String)
    (x : ShardRecord) (rest : List ShardRecord)
    (h : removeFirst l id = some (x, rest)) :
    (idsOf l).Perm (x.shard_id :: idsOf rest) := by
  induction l generalizing rest with
  | nil => simp [removeFirst] at h
  | cons s tl ih =>
      by_cases hs : s.shard_id = id
      · simp only [removeFirst, if_pos hs, Option.some.injEq, Prod.mk.injEq] at h
        rw [← h.1, ← h.2]
        exact List.Perm.refl _
      · simp only [removeFirst, if_neg hs] at h
        cases htl : removeFirst tl id with
        | none => rw [htl] at h; simp at h
        | some p =>
            obtain ⟨y, l2⟩ := p
            rw [htl] at h
            simp only [Option.some.injEq, Prod.mk.injEq] at h
            have hy : removeFirst tl id = some (x, l2) := by rw [htl, h.1]
            have hperm := ih l2 hy
            have h1 : (idsOf (s :: tl)).Perm
                (s.shard_id :: x.shard_id :: idsOf l2) := by
              simpa [idsOf] using hperm.cons s.shard_id
            have h2 : (s.shard_id :: x.shard_id :: idsOf l2).Perm
                (x.shard_id :: s.shard_id :: idsOf l2) :=
              List.Perm.swap _ _ _
            have h3 : x.shard_id :: s.shard_id :: idsOf l2
                = x.shard_id :: idsOf rest := by
              rw [← h.2]; simp [idsOf]
            exact h3 ▸ h1.trans h2

/-- Moving the popped record (under any status/stamp rewrite that keeps
its id) from active to completed preserves the collection invariant. -/
theorem storeInv_move (st : ShardStore) (id : String) (x x1 : ShardRecord)
    (rest : List ShardRecord)
    (hx1 : x1.shard_id = x.shard_id)
    (h : removeFirst st.active_shards id = some (x, rest))
    (inv : StoreInv st) :
    StoreInv { st with active_shards := rest,
                       completed_shards := st.completed_shards ++ [x1] } := by
  obtain ⟨nA, nC, nR, dAC, dAR, dCR⟩ := inv
  rw [disjointIds_iff] at dAC dAR dCR
  have hperm := removeFirst_perm st.active_shards id x rest h
  have hcons : (x.shard_id :: idsOf rest).Nodup := hperm.nodup_iff.mp nA
  have hxnot : x.shard_id ∉ idsOf rest := (List.nodup_cons.mp hcons).1
  have nA1 : (idsOf rest).Nodup := (List.nodup_cons.mp hcons).2
  have memA : x.shard_id ∈ idsOf st.active_shards :=
    hperm.mem_iff.mpr (List.mem_cons_self _ _)
  have hsub : ∀ a ∈ idsOf rest, a ∈ idsOf st.active_shards :=
    fun a ha => hperm.mem_iff.mpr (List.mem_cons_of_mem _ ha)
  have hCids : idsOf (st.completed_shards ++ [x1])
      = idsOf st.completed_shards ++ [x.shard_id] := by
    simp [idsOf, hx1]
  refine ⟨nA1, ?_, nR, ?_, ?_, ?_⟩
  · rw [hCids]
    refine List.Nodup.append nC (List.nodup_singleton _) ?_
    intro a haC
    simp only [List.mem_singleton]
    intro e
    exact dAC _ memA (e ▸ haC)
  · rw [disjointIds_iff]
    intro a ha
    rw [hCids]
    simp only [List.mem_append, List.mem_singleton]
    rintro (hc | e)
    · exact dAC _ (hsub a ha) hc
    · exact hxnot (e ▸ ha)
  · rw [disjointIds_iff]
    intro a ha
    exact dAR _ (hsub a ha)
  · rw [disjointIds_iff]
    rw [hCids]
    intro a ha
    rcases List.mem_append.mp ha with hc | hx
    · exact dCR _ hc
    · rw [List.mem_singleton] at hx
      exact hx ▸ dAR _ memA

/-- Assign preserves the collection invariant (it never changes the
stored ids). -/
theorem storeInv_assign (manifest : List AgentDescriptor) (st : ShardStore)
    (shard_id : String) (inv : StoreInv st) :
    StoreInv (assign_shard_to_agent manifest st shard_id).2 := by
  unfold assign_shard_to_agent
  split
  · exact inv
  · split
    · exact inv
    · unfold StoreInv at inv ⊢
      simpa [idsOf_setStatusFirst] using inv

/-- Complete preserves the collection invariant on every outcome path,
including the partially mutated in-memory state of the KeyError path. -/
theorem storeInv_complete (st : ShardStore) (shard_id now : String)
    (inv : StoreInv st) :
    StoreInv (completeResultState (complete_shard st shard_id now)) := by
  unfold complete_shard
  cases h : removeFirst st.active_shards shard_id with
  | none => exact inv
  | some p =>
      obtain ⟨x, rest⟩ := p
      have hmove := storeInv_move st shard_id x
        { x with status := TaskStatus.completed.value, completed_at := some now }
        rest rfl h inv
      cases hm : st.metrics with
      | none => exact hmove
      | some m => exact hmove

/-- A successful schema validation makes `create_story_shard` append the
shard dict to the active collection and return the validated spec. -/
theorem create_eq_of_build (st : ShardStore) (sid title desc : String)
    (owner : AgentRole) (prio : String) (deps : List String) (now : String)
    (shard : StoryShardSpec)
    (h : StoryShardSpec.build sid title desc owner prio TaskStatus.pending
          deps 5 now = .ok shard) :
    create_story_shard st sid title desc owner prio deps now
      = .ok (shard,
          { st with active_shards := st.active_shards ++ [shardDictOf shard] }) := by
  unfold create_story_shard
  rw [h]
  rfl

/-- When every declared constraint holds, `StoryShardSpec.build` succeeds
with the trimmed field values. -/
theorem build_ok_of_valid (sid title desc : String) (owner : AgentRole)
    (prio : String) (stt : TaskStatus) (deps : List String) (now : String)
    (h1 : shardIdMatches (pyStrip sid) = true)
    (h2 : 5 ≤ (pyStrip title).length) (h3 : (pyStrip title).length ≤ 200)
    (h4 : 20 ≤ (pyStrip desc).length) :
    StoryShardSpec.build sid title desc owner prio stt deps 5 now
      = .ok { shard_id := pyStrip sid, title := pyStrip title,
              description := pyStrip desc, owner_agent := owner,
              priority := prio, status := stt, dependencies := deps,
              estimated_complexity := 5, created_at := now } := by
  unfold StoryShardSpec.build
  simp [h1, h2, h3, h4]

/-- When the shard-id pattern fails, `StoryShardSpec.build` fails and
reports the pattern violation. -/
theorem build_err_of_mismatch (sid title desc : String) (owner : AgentRole)
    (prio : String) (stt : TaskStatus) (deps : List String) (c : Nat)
    (now : String)
    (h1 : shardIdMatches (pyStrip sid) = false) :
    ∃ e, StoryShardSpec.build sid title desc owner prio stt deps c now
          = .error e ∧ ShardFieldViolation.shard_id_mismatch ∈ e := by
  unfold StoryShardSpec.build
  simp only [h1, Bool.false_eq_true, if_false, List.nil_append,
    List.singleton_append, List.cons_append, List.isEmpty_cons]
  exact ⟨_, rfl, List.mem_cons_self _ _⟩

/-! ## Claim theorems -/

/-- Claim C1, counterexample: with `SHARD-001-A` already present in the
active collection, Create with that same id does not fail — it succeeds
and appends a second record with the same id, so the claimed
`DuplicateShardError` behaviour is absent from the code. -/
theorem C1_counterexample :
    idsOf c1_st1.active_shards = ["SHARD-001-A"]
    ∧ exceptIsOk (c1_create c1_st1 "T1") = true
    ∧ idsOf (createStateOr ShardStore.initial (c1_create c1_st1 "T1")).active_shards
        = ["SHARD-001-A", "SHARD-001-A"] := by
  decide

/-- Claim C1, amended: `create_story_shard` performs no duplicate check:
even when the shard_id is already present in some collection, a
schema-valid Create succeeds and unconditionally appends a new record
with that id to the active collection. -/
theorem C1_amended_no_duplicate_check :
    ∀ (st : ShardStore) (sid title desc : String) (owner : AgentRole)
      (prio : String) (deps : List String) (now : String)
      (shard : StoryShardSpec),
      StoryShardSpec.build sid title desc owner prio TaskStatus.pending
          deps 5 now = .ok shard →
      shard.shard_id ∈ idsOf st.active_shards ++ idsOf st.completed_shards
          ++ idsOf st.archived_shards →
      create_story_shard st sid title desc owner prio deps now
        = .ok (shard, { st with active_shards :=
            st.active_shards ++ [shardDictOf shard] }) :=
  fun st sid t d o p dp n sh hb _ => create_eq_of_build st sid t d o p dp n sh hb

/-- Claim C1, witness for the amended statement at `SHARD-001-A`, which
is already active in `c1_st1`. -/
theorem C1_amended_witness :
    create_story_shard c1_st1 "SHARD-001-A" sampleTitle sampleDescription
        AgentRole.ARCHITECTURAL_SOVEREIGN "medium" [] "T1"
      = .ok (c1_shard, { c1_st1 with active_shards :=
          c1_st1.active_shards ++ [shardDictOf c1_shard] }) :=
  C1_amended_no_duplicate_check c1_st1 "SHARD-001-A" sampleTitle
    sampleDescription AgentRole.ARCHITECTURAL_SOVEREIGN "medium" [] "T1"
    c1_shard (by decide) (by decide)

/-- Claim C2, counterexample: starting from a loaded store with a
metrics sub-document, the reachable sequence Create `SHARD-001-A`,
Complete it, Create it again leaves `SHARD-001-A` a member of both the
active and the completed collection, so the operations do not preserve
the claimed disjointness. -/
theorem C2_counterexample :
    exceptIsOk (c1_create c2_st0 "T0") = true
    ∧ completeIsOk (complete_shard c2_st1 "SHARD-001-A" "T1") = true
    ∧ exceptIsOk (c1_create c2_st2 "T2") = true
    ∧ "SHARD-001-A" ∈ idsOf c2_st3.active_shards
    ∧ "SHARD-001-A" ∈ idsOf c2_st3.completed_shards := by
  decide

/-- Claim C2, amended: Assign and Complete (on every outcome path)
preserve the disjointness and duplicate-freedom of the three
collections, but Create appends the new record to the active collection
unconditionally, so a shard_id already present in the completed or
archived collection becomes a member of two collections. -/
theorem C2_amended_disjointness :
    (∀ (manifest : List AgentDescriptor) (st : ShardStore)
       (shard_id : String), StoreInv st →
       StoreInv (assign_shard_to_agent manifest st shard_id).2)
    ∧ (∀ (st : ShardStore) (shard_id now : String), StoreInv st →
       StoreInv (completeResultState (complete_shard st shard_id now)))
    ∧ (∀ (st : ShardStore) (sid title desc : String) (owner : AgentRole)
         (prio : String) (deps : List String) (now : String)
         (shard : StoryShardSpec),
       StoryShardSpec.build sid title desc owner prio TaskStatus.pending
           deps 5 now = .ok shard →
       create_story_shard st sid title desc owner prio deps now
         = .ok (shard, { st with active_shards :=
             st.active_shards ++ [shardDictOf shard] })) :=
  ⟨fun m st sid inv => storeInv_assign m st sid inv,
   fun st sid now inv => storeInv_complete st sid now inv,
   fun st sid t d o p dp n sh hb => create_eq_of_build st sid t d o p dp n sh hb⟩

/-- Claim C2, witness for the amended statement: the invariant survives
a concrete Assign and a concrete Complete, and a concrete Create appends
unconditionally. -/
theorem C2_amended_witness :
    StoreInv (assign_shard_to_agent sampleManifest c3_st "SHARD-002-B").2
    ∧ StoreInv (completeResultState (complete_shard c8_st "SHARD-004-D" "T5"))
    ∧ create_story_shard c2_st0 "SHARD-001-A" sampleTitle sampleDescription
        AgentRole.ARCHITECTURAL_SOVEREIGN "medium" [] "T0"
      = .ok (c2_shard0, { c2_st0 with active_shards :=
          c2_st0.active_shards ++ [shardDictOf c2_shard0] }) :=
  ⟨C2_amended_disjointness.1 sampleManifest c3_st "SHARD-002-B" (by decide),
   C2_amended_disjointness.2.1 c8_st "SHARD-004-D" "T5" (by decide),
   C2_amended_disjointness.2.2 c2_st0 "SHARD-001-A" sampleTitle
     sampleDescription AgentRole.ARCHITECTURAL_SOVEREIGN "medium" [] "T0"
     c2_shard0 (by decide)⟩

/-- Claim C3, counterexample: `SHARD-002-B` has the unmet dependency
`SHARD-999-DEP` (the completed collection is empty), yet Assign succeeds,
resolves the owner agent and sets the status to in_progress — no
`DependencyNotSatisfiedError` exists in the control flow. -/
theorem C3_counterexample :
    c3_st.completed_shards.isEmpty = true
    ∧ c3_record.dependencies = ["SHARD-999-DEP"]
    ∧ assign_shard_to_agent sampleManifest c3_st "SHARD-002-B"
        = (some c8_agent,
           { c3_st with active_shards :=
               [{ c3_record with status := "in_progress" }] }) := by
  decide

/-- Claim C3, amended: `assign_shard_to_agent` performs no dependency
check at all: whenever the shard is found in the active collection and
its owner resolves in the manifest, Assign succeeds and sets the status
to in_progress, irrespective of the dependencies field and of the
completed collection. -/
theorem C3_amended_no_dependency_check :
    ∀ (manifest : List AgentDescriptor) (st : ShardStore)
      (shard_id : String) (shard : ShardRecord) (agent : AgentDescriptor),
      st.active_shards.find? (fun s => s.shard_id = shard_id) = some shard →
      manifest.find?
          (fun a => normalizeAgentName a.name = shard.owner_agent) = some agent →
      assign_shard_to_agent manifest st shard_id
        = (some agent, { st with active_shards :=
            (setStatusFirst st.active_shards shard_id
              TaskStatus.in_progress.value) }) := by
  intro manifest st shard_id shard agent h1 h2
  simp only [assign_shard_to_agent, h1, h2]

/-- Claim C3, witness for the amended statement: Assign succeeds on the
shard with an unmet dependency. -/
theorem C3_amended_witness :
    assign_shard_to_agent sampleManifest c3_st "SHARD-002-B"
      = (some c8_agent, { c3_st with active_shards :=
          (setStatusFirst c3_st.active_shards "SHARD-002-B"
            TaskStatus.in_progress.value) }) :=
  C3_amended_no_dependency_check sampleManifest c3_st "SHARD-002-B"
    c3_record c8_agent (by decide) (by decide)

/-- Claim C4 (confirmed): Complete on a shard_id absent from the active
collection signals the not-found failure (the source prints and returns
False before any mutation) and leaves the entire document — all three
collections and the metrics counter — exactly unchanged. -/
theorem C4_complete_missing_not_found :
    ∀ (st : ShardStore) (shard_id now : String),
      shard_id ∉ idsOf st.active_shards →
      complete_shard st shard_id now = CompleteResult.notFound st := by
  intro st shard_id now h
  unfold complete_shard
  rw [removeFirst_eq_none_of_not_mem st.active_shards shard_id h]

/-- Claim C4, witness: completing the unknown id `SHARD-404-X` leaves the
concrete store untouched. -/
theorem C4_witness :
    complete_shard c4_st "SHARD-404-X" "T9" = CompleteResult.notFound c4_st :=
  C4_complete_missing_not_found c4_st "SHARD-404-X" "T9" (by decide)

/-- Claim C5 (confirmed): `validate_code_update` is exactly the
conjunction of the three quality gates — true iff `tests_passed`,
`security_scan_passed` and `linting_passed` all hold, over all eight
boolean combinations, with no side effects. -/
theorem C5_validate_code_update_conjunction :
    ∀ (u : CodeUpdate),
      validate_code_update u
        = (u.tests_passed && u.security_scan_passed && u.linting_passed) := by
  intro u
  rcases u with ⟨fp, lang, code, t, s, l⟩
  cases t <;> cases s <;> cases l <;> rfl

/-- Claim C6 (confirmed): `validate_journal_entry` is a pure predicate
of the entry's fields: false when `task_id` or `logic_summary` is empty,
false when the clearance is TOP_SECRET with no commit hash, and true for
an entry with non-empty `task_id` and `logic_summary` carrying a
7-character lowercase-hex commit hash. -/
theorem C6_validate_journal_entry_policy :
    ∀ (e : AgenticJournalEntry),
      ((e.task_id = "" ∨ e.logic_summary = "") →
        validate_journal_entry e = false)
      ∧ (e.security_clearance = SecurityLevel.TOP_SECRET →
          e.git_commit_hash = none → validate_journal_entry e = false)
      ∧ (∀ h : String, e.task_id ≠ "" → e.logic_summary ≠ "" →
          e.git_commit_hash = some h → h.length = 7 →
          h.toList.all (fun c => c.isDigit || ('a' ≤ c && c ≤ 'f')) = true →
          validate_journal_entry e = true) := by
  intro e
  refine ⟨?_, ?_, ?_⟩
  · intro h
    rcases h with h | h <;> simp [validate_journal_entry, h]
  · intro hc hg
    simp [validate_journal_entry, hc, hg, optStrFalsy]
  · intro h hti hls hg hlen _
    have hne : h ≠ "" := by
      intro he
      rw [he] at hlen
      exact absurd hlen (by decide)
    simp [validate_journal_entry, hti, hls, hg, optStrFalsy, hne]

/-- Claim C6, witness: an entry with empty task_id validates false, the
TOP_SECRET entry without a hash validates false, and the same entry with
the hash `a1b2c3d` validates true. -/
theorem C6_witness :
    validate_journal_entry c6_entry_empty = false
    ∧ validate_journal_entry c6_entry_ts_nohash = false
    ∧ validate_journal_entry c6_entry_ts_hash = true :=
  ⟨(C6_validate_journal_entry_policy c6_entry_empty).1 (Or.inl rfl),
   (C6_validate_journal_entry_policy c6_entry_ts_nohash).2.1 rfl rfl,
   (C6_validate_journal_entry_policy c6_entry_ts_hash).2.2 "a1b2c3d"
     (by decide) (by decide) rfl (by decide) (by decide)⟩

/-- Claim C7 (confirmed): Create rejects every shard id whose stripped
value fails the pattern `SHARD-\d{3}-[A-Z]+` with a schema validation
failure reporting the pattern violation, and succeeds whenever the
pattern and the remaining string-length constraints hold. -/
theorem C7_shard_id_pattern :
    ∀ (st : ShardStore) (sid title desc : String) (owner : AgentRole)
      (prio : String) (deps : List String) (now : String),
      (shardIdMatches (pyStrip sid) = false →
        exceptIsOk (create_story_shard st sid title desc owner prio deps now)
            = false
        ∧ ShardFieldViolation.shard_id_mismatch
            ∈ createErrsOr []
                (create_story_shard st sid title desc owner prio deps now))
      ∧ (shardIdMatches (pyStrip sid) = true →
         5 ≤ (pyStrip title).length → (pyStrip title).length ≤ 200 →
         20 ≤ (pyStrip desc).length →
         exceptIsOk (create_story_shard st sid title desc owner prio deps now)
           = true) := by
  intro st sid title desc owner prio deps now
  constructor
  · intro hm
    obtain ⟨e, he, hmem⟩ := build_err_of_mismatch sid title desc owner prio
      TaskStatus.pending deps 5 now hm
    unfold create_story_shard
    rw [he]
    exact ⟨rfl, hmem⟩
  · intro hm h2 h3 h4
    rw [create_eq_of_build st sid title desc owner prio deps now _
      (build_ok_of_valid sid title desc owner prio TaskStatus.pending deps
        now hm h2 h3 h4)]
    rfl

/-- Claim C7, witness: `INVALID-ID` is rejected with the pattern
violation and `SHARD-001-INIT` is accepted. -/
theorem C7_witness :
    exceptIsOk (create_story_shard ShardStore.initial "INVALID-ID"
        sampleTitle sampleDescription AgentRole.ARCHITECTURAL_SOVEREIGN
        "medium" [] "T0") = false
    ∧ ShardFieldViolation.shard_id_mismatch
        ∈ createErrsOr [] (create_story_shard ShardStore.initial "INVALID-ID"
            sampleTitle sampleDescription AgentRole.ARCHITECTURAL_SOVEREIGN
            "medium" [] "T0")
    ∧ exceptIsOk (create_story_shard ShardStore.initial "SHARD-001-INIT"
        sampleTitle sampleDescription AgentRole.ARCHITECTURAL_SOVEREIGN
        "medium" [] "T0") = true :=
  ⟨((C7_shard_id_pattern ShardStore.initial "INVALID-ID" sampleTitle
      sampleDescription AgentRole.ARCHITECTURAL_SOVEREIGN "medium" []
      "T0").1 (by decide)).1,
   ((C7_shard_id_pattern ShardStore.initial "INVALID-ID" sampleTitle
      sampleDescription AgentRole.ARCHITECTURAL_SOVEREIGN "medium" []
      "T0").1 (by decide)).2,
   (C7_shard_id_pattern ShardStore.initial "SHARD-001-INIT" sampleTitle
      sampleDescription AgentRole.ARCHITECTURAL_SOVEREIGN "medium" []
      "T0").2 (by decide) (by decide) (by decide) (by decide)⟩

/-- Claim C8 (confirmed): Assign is idempotent: after a successful
Assign (which leaves the shard in_progress with its owner untouched),
assigning the same shard again succeeds with the same resolved agent,
changes nothing, and never duplicates the shard in the active
collection. -/
theorem C8_assign_idempotent :
    ∀ (manifest : List AgentDescriptor) (st : ShardStore)
      (shard_id : String) (agent : AgentDescriptor) (st2 : ShardStore),
      assign_shard_to_agent manifest st shard_id = (some agent, st2) →
      assign_shard_to_agent manifest st2 shard_id = (some agent, st2)
      ∧ st2.active_shards.length = st.active_shards.length := by
  intro manifest st shard_id agent st2 h
  rcases h1 : st.active_shards.find? (fun s => s.shard_id = shard_id)
    with _ | shard
  · simp only [assign_shard_to_agent, h1] at h
    exact absurd (congrArg Prod.fst h) (by simp)
  · rcases h2 : manifest.find?
        (fun a => normalizeAgentName a.name = shard.owner_agent)
      with _ | agent2
    · simp only [assign_shard_to_agent, h1, h2] at h
      exact absurd (congrArg Prod.fst h) (by simp)
    · simp only [assign_shard_to_agent, h1, h2, Prod.mk.injEq,
        Option.some.injEq] at h
      obtain ⟨ha, hs⟩ := h
      subst ha
      subst hs
      constructor
      · have hf : (setStatusFirst st.active_shards shard_id
              TaskStatus.in_progress.value).find?
              (fun s => s.shard_id = shard_id)
            = some { shard with status := TaskStatus.in_progress.value } := by
          rw [find?_setStatusFirst, h1]
          rfl
        simp only [assign_shard_to_agent, hf, h2, setStatusFirst_idem]
      · exact length_setStatusFirst _ _ _

/-- Claim C8, witness: a second Assign of `SHARD-004-D` on the
post-assignment store returns the same agent and the same store, with
the active collection length unchanged. -/
theorem C8_witness :
    assign_shard_to_agent sampleManifest c8_st2 "SHARD-004-D"
        = (some c8_agent, c8_st2)
    ∧ c8_st2.active_shards.length = c8_st.active_shards.length :=
  C8_assign_idempotent sampleManifest c8_st "SHARD-004-D" c8_agent c8_st2
    (by decide)

set_option maxRecDepth 16000 in
set_option maxHeartbeats 2000000 in
/-- Claim C9, counterexample: two Record calls for the same task within
the same second-resolution timestamp write the same record name, and the
second call overwrites the first record's content — so a sequence of
Record calls can edit a previously written record. -/
theorem C9_counterexample :
    c9_j1.files.length = 1
    ∧ c9_j2.files.length = 1
    ∧ c9_j1.files.map Prod.fst = c9_j2.files.map Prod.fst
    ∧ c9_j1.files ≠ c9_j2.files := by
  decide

/-- Claim C9, amended: Record writes the rendered entry under the name
derived from the second-resolution timestamp plus the lowercased task id
and returns the validated entry; it never touches records under other
names, and it appends a genuinely new record whenever no existing record
carries that name — but a Record call whose timestamp and task id
coincide with an existing record's overwrites that record. -/
theorem C9_amended_journal_append :
    ∀ (j : JournalStore) (task_id : String) (guru_agent : AgentRole)
      (logic_summary : String) (subs arts : List String)
      (status : TaskStatus) (clock : ClockReading)
      (entry : AgenticJournalEntry) (j2 : JournalStore),
      create_journal_entry j task_id guru_agent logic_summary subs arts
          status clock = .ok (entry, j2) →
      ((j.files.all
          (fun p => p.1 ≠ journalFilename clock.fileStamp task_id)) = true →
        j2.files = j.files
          ++ [(journalFilename clock.fileStamp task_id,
               renderJournalContent entry clock.display)])
      ∧ (∀ p ∈ j.files,
          p.1 ≠ journalFilename clock.fileStamp task_id → p ∈ j2.files) := by
  intro j task_id guru logic subs arts status clock entry j2 h
  rcases hb : AgenticJournalEntry.build task_id guru logic subs arts
      SecurityLevel.INTERNAL status clock.iso with er | e0
  · rw [create_journal_entry, hb] at h
    exact absurd h (by simp)
  · simp only [create_journal_entry, hb, Except.ok.injEq, Prod.mk.injEq] at h
    obtain ⟨he, hj⟩ := h
    subst he
    subst hj
    constructor
    · intro hall
      have hany : (j.files.any
          (fun p => p.1 = journalFilename clock.fileStamp task_id)) = false := by
        rw [List.any_eq_false]
        intro p hp
        have := List.all_eq_true.mp hall p hp
        simpa using this
      simp [JournalStore.write, hany]
    · intro p hp hne
      unfold JournalStore.write
      by_cases hif : (j.files.any
          (fun p => p.1 = journalFilename clock.fileStamp task_id)) = true
      · simp only [hif, if_true]
        refine List.mem_map.mpr ⟨p, hp, ?_⟩
        simp [hne]
      · simp only [Bool.not_eq_true] at hif
        simp only [hif, Bool.false_eq_true, if_false]
        exact List.mem_append_left _ hp

set_option maxRecDepth 16000 in
set_option maxHeartbeats 2000000 in
/-- Claim C9, witness for the amended statement: Recording into an empty
journal appends exactly one record named from the timestamp and the
lowercased task id, holding the rendered entry. -/
theorem C9_amended_witness :
    c9w_j2.files = JournalStore.empty.files
      ++ [(journalFilename c9_clock.fileStamp "SHARD-005-E",
           renderJournalContent c9w_entry c9_clock.display)] :=
  ((C9_amended_journal_append JournalStore.empty "SHARD-005-E"
      AgentRole.SECURITY_SENTINEL
      "Witness summary for the journal recorder." ["Scanner"] ["a.py"]
      TaskStatus.completed c9_clock c9w_entry c9w_j2 (by decide)).1)
    (by decide)

/-- Claim C10 (confirmed): when the loaded document has no `metrics`
sub-document (the default the loader produces when no shard file exists)
and the shard IS present in the active collection, Complete hits the
unhandled KeyError at the metrics increment, after the in-memory
document has already had the shard removed from active and appended to
completed — the operation is neither total nor atomic there. -/
theorem C10_complete_keyerror :
    ∀ (st : ShardStore) (shard_id now : String) (x : ShardRecord)
      (rest : List ShardRecord),
      st.metrics = none →
      removeFirst st.active_shards shard_id = some (x, rest) →
      complete_shard st shard_id now
        = CompleteResult.keyError
            { st with active_shards := rest,
                      completed_shards := st.completed_shards ++ [completedDictOf x now] } := by
  intro st shard_id now x rest hm hr
  unfold complete_shard
  rw [hr]
  simp [hm, completedDictOf]

/-- Claim C10, witness: on the default-loaded store after one Create,
Complete of `SHARD-003-C` yields the KeyError outcome with the shard
already moved in memory. -/
theorem C10_witness :
    complete_shard c10_st "SHARD-003-C" "T9"
      = CompleteResult.keyError
          { c10_st with active_shards := [],
                        completed_shards := c10_st.completed_shards ++ [c10_rec_done] } :=
  C10_complete_keyerror c10_st "SHARD-003-C" "T9" c10_rec [] (by decide)
    (by decide)

end Forge
